import Mathlib

/-!
Verification of the pydanticrud repository against its specification.

Each section shallowly embeds one part of the source code:

* IterableResult               (pydanticrud/main.py)
* chunk_list and batch_save    (pydanticrud/backends/dynamodb.py)
* the rule-to-boto expression compiler, the index planner and the query
  planner                      (pydanticrud/backends/dynamodb.py)
* build_update_condition_with_revision and VersionedBaseModel.save
                               (app/models/base.py)
* the rule-to-SQL expression compiler and save
                               (pydanticrud/backends/sqlite.py)
* the DynamoDB field serializer and deserializer
                               (pydanticrud/backends/dynamodb.py)

Python exceptions are modelled with Except; machine-level detail (boto3
network calls, sqlite3 connections) is cut at the point where the request
payload is fully determined, so every theorem speaks about the request the
code would issue or the value or exception it would return.
-/

namespace PydantiCrud

/-! ### IterableResult (pydanticrud/main.py, lines 13-36)

The records list is modelled generically: parse_obj is applied by the
constructor before the state is built, so the element type is abstract
here.  The mutable attribute underscore-current-index is the cursor field.
-/

structure IterableResult (α : Type) where
  records : List α
  count : Option Nat
  currentIndex : Nat

/-- Model of IterableResult.__next__: return the record at the cursor and
advance, or on IndexError reset the cursor to 0 and raise StopIteration
(modelled as the none result). -/
def iterNext {α : Type} (s : IterableResult α) : Option α × IterableResult α :=
  match s.records[s.currentIndex]? with
  | some m => (some m, { s with currentIndex := s.currentIndex + 1 })
  | none => (none, { s with currentIndex := 0 })

/-- Model of IterableResult.__getitem__ with an integer index: it reads the
records list directly and never consults the cursor. -/
def iterGetItem {α : Type} (s : IterableResult α) (i : Nat) : Option α :=
  s.records[i]?

/-- Repeatedly call iterNext until StopIteration, collecting the yielded
records; the fuel argument bounds the number of calls. -/
def iterDrain {α : Type} : Nat → IterableResult α → List α × IterableResult α
  | 0, s => ([], s)
  | Nat.succ fuel, s =>
    match iterNext s with
    | (some m, s2) => (m :: (iterDrain fuel s2).1, (iterDrain fuel s2).2)
    | (none, s2) => ([], s2)

theorem iterDrain_from (α : Type) (recs : List α) (cnt : Option Nat) :
    ∀ fuel idx, recs.length - idx < fuel →
      iterDrain fuel ⟨recs, cnt, idx⟩ = (recs.drop idx, ⟨recs, cnt, 0⟩) := by
  intro fuel
  induction fuel with
  | zero => intro idx h; omega
  | succ f ih =>
    intro idx h
    by_cases hlt : idx < recs.length
    · have hm : recs[idx]? = some recs[idx] := List.getElem?_eq_getElem hlt
      have hdrop : recs.drop idx = recs[idx] :: recs.drop (idx + 1) :=
        List.drop_eq_getElem_cons hlt
      have hrec := ih (idx + 1) (by omega)
      have hn : iterNext (⟨recs, cnt, idx⟩ : IterableResult α) =
          (some recs[idx], ⟨recs, cnt, idx + 1⟩) := by
        simp only [iterNext, hm]
      simp only [iterDrain, hn, hrec, hdrop]
    · have hnone : recs[idx]? = none := by
        rw [List.getElem?_eq_none_iff]; omega
      have hdrop : recs.drop idx = [] := by
        apply List.drop_eq_nil_of_le; omega
      have hn : iterNext (⟨recs, cnt, idx⟩ : IterableResult α) =
          (none, ⟨recs, cnt, 0⟩) := by
        simp only [iterNext, hnone]
      simp only [iterDrain, hn, hdrop]

/-- C10: exhausting an IterableResult by repeated calls to the model of
__next__ yields all records, leaves the cursor reset to 0 so a second
exhaustion yields the full list again, and the model of __getitem__ ignores
the cursor entirely. -/
theorem iterable_result_reiterates (α : Type) (recs : List α) (cnt : Option Nat) :
    (iterDrain (recs.length + 1) (⟨recs, cnt, 0⟩ : IterableResult α)).1 = recs ∧
    (iterDrain (recs.length + 1) (⟨recs, cnt, 0⟩ : IterableResult α)).2 =
      ⟨recs, cnt, 0⟩ ∧
    (iterDrain (recs.length + 1)
      ((iterDrain (recs.length + 1) (⟨recs, cnt, 0⟩ : IterableResult α)).2)).1 = recs ∧
    ∀ cursor i, iterGetItem (⟨recs, cnt, cursor⟩ : IterableResult α) i = recs[i]? := by
  have h1 := iterDrain_from α recs cnt (recs.length + 1) 0 (by omega)
  refine ⟨by simp [h1], by simp [h1], ?_, fun cursor i => rfl⟩
  rw [h1]
  simp [h1]

/-! ### chunk_list and batch_save (pydanticrud/backends/dynamodb.py)

chunk_list (lines 103-105) yields lst[i : i + size] for i in
range(0, len(lst), size); range(0, n, size) enumerates ceil(n / size)
indices i * size, which is what List.range provides below.

batch_save (lines 428-453) builds one request_items dictionary before the
chunk loop, appends a PutRequest for every item of every chunk to the same
list, and only after the loop has finished issues a single
batch_write_item call with the accumulated list.  The model returns the
list of payloads of the batch_write_item calls the function performs, each
payload being the list of items in that call.
-/

def chunk_list {α : Type} (lst : List α) (size : Nat) : List (List α) :=
  (List.range ((lst.length + size - 1) / size)).map
    (fun i => ((lst.drop (i * size)).take size))

/-- Model of Backend.batch_save: the request payloads of the
batch_write_item calls issued, in order.  The accumulation loop flattens
every chunk into the single request_items list, and the call itself sits
outside the loop, so exactly one call is made, carrying every item. -/
def batch_save {α : Type} (items : List α) : List (List α) :=
  [(chunk_list items 25).flatten]

/-- C5: the code chunks the input only to flatten the chunks back into one
request dictionary; with 26 records the single batch_write_item call
carries all 26 put requests, exceeding the documented 25-item limit. -/
theorem batch_save_oversized_single_call :
    batch_save (List.range 26) = [List.range 26] ∧
    (batch_save (List.range 26)).length = 1 ∧
    ∀ call ∈ batch_save (List.range 26), call.length = 26 := by
  refine ⟨by decide, by decide, by decide⟩

/-! ### The rule-to-boto expression compiler (pydanticrud/backends/dynamodb.py,
lines 19-63)

The rule_engine AST nodes that expression_to_condition handles are embedded
as RuleExpr.  A Python datetime is modelled by its signed distance in
seconds from the epoch the code subtracts (the naive epoch for naive
values, the same epoch with tzinfo utc for aware values), together with
its awareness flag, so tz-aware differences are preserved by construction.
Comparison operators carry the node type string from rule_engine
(eq, ne, lt, gt, le, ge).
-/

deriving instance DecidableEq for Except

structure PyDateTime where
  secs : Rat
  aware : Bool
deriving DecidableEq, Repr

/-- Model of the helper to-epoch-decimal (dynamodb.py lines 77-82): the
total_seconds of the difference between the value and the matching epoch,
wrapped as a Decimal. -/
def to_epoch_decimal (dt : PyDateTime) : Rat :=
  dt.secs

inductive CmpOp where
  | eq | ne | lt | gt | le | ge
deriving DecidableEq, Repr

/-- AST of the rule_engine expression nodes handled by the compiler. -/
inductive RuleExpr where
  | andE (l r : RuleExpr)
  | orE (l r : RuleExpr)
  | cmp (op : CmpOp) (l r : RuleExpr)
  | symbol (name : String)
  | nullE
  | dtE (d : PyDateTime)
  | strE (s : String)
  | floatE (q : Rat)
  | containsE (container member : RuleExpr)
deriving DecidableEq, Repr

/-- Values that can appear on the value side of a compiled boto condition.
The dec constructor is a Decimal, dt a raw datetime object (which the
compiler never emits, see dt_literal_always_epoch). -/
inductive DVal where
  | int (n : Int)
  | float (q : Rat)
  | dec (q : Rat)
  | str (s : String)
  | dt (d : PyDateTime)
deriving DecidableEq, Repr

/-- A boto3 Key or Attr operand. -/
inductive Operand where
  | key (name : String)
  | attr (name : String)
deriving DecidableEq, Repr

/-- Compiled boto3 condition objects. -/
inductive BotoCond where
  | eqC (o : Operand) (v : DVal)
  | neC (o : Operand) (v : DVal)
  | ltC (o : Operand) (v : DVal)
  | gtC (o : Operand) (v : DVal)
  | lteC (o : Operand) (v : DVal)
  | gteC (o : Operand) (v : DVal)
  | notExistsC (o : Operand)
  | existsC (o : Operand)
  | andC (l r : BotoCond)
  | orC (l r : BotoCond)
  | containsC (o : Operand) (v : DVal)
deriving DecidableEq, Repr

/-- An intermediate compilation result: a condition, a bare Key or Attr
operand, a literal value, or Python None (from a null literal). -/
inductive CompiledPart where
  | cond (c : BotoCond)
  | operand (o : Operand)
  | val (v : DVal)
  | noneP
deriving DecidableEq, Repr

/-- Uncaught Python exceptions of the compiler and planner. -/
inductive DynErr where
  | notImplementedError
  | typeError
  | attributeError
  | keyError
deriving DecidableEq, Repr

/-- Apply a boto comparison method (after the le to lte, ge to gte rename)
to an operand; non-operand receivers or non-value arguments raise. -/
def apply_cmp (op : CmpOp) (l r : CompiledPart) : Except DynErr CompiledPart :=
  match l with
  | .operand o =>
    match op, r with
    | .eq, .val v => .ok (.cond (.eqC o v))
    | .ne, .val v => .ok (.cond (.neC o v))
    | .lt, .val v => .ok (.cond (.ltC o v))
    | .gt, .val v => .ok (.cond (.gtC o v))
    | .le, .val v => .ok (.cond (.lteC o v))
    | .ge, .val v => .ok (.cond (.gteC o v))
    | _, _ => .error .typeError
  | _ => .error .attributeError

/-- Model of expression_to_condition (dynamodb.py lines 19-59).  Returns
the compiled part together with the set of key names used.  Logic nodes
combine sub-conditions; eq and ne against a null literal become
not_exists and exists; symbols compile to Key when the name is in the
keys set and Attr otherwise; datetime literals are unconditionally
converted with to-epoch-decimal; float literals collapse to int when the
value is integral. -/
def expression_to_condition (keys : Finset String) :
    RuleExpr → Except DynErr (CompiledPart × Finset String)
  | .andE l r => do
    let (lc, lk) ← expression_to_condition keys l
    let (rc, rk) ← expression_to_condition keys r
    match lc, rc with
    | .cond a, .cond b => .ok (.cond (.andC a b), lk ∪ rk)
    | _, _ => .error .typeError
  | .orE l r => do
    let (lc, lk) ← expression_to_condition keys l
    let (rc, rk) ← expression_to_condition keys r
    match lc, rc with
    | .cond a, .cond b => .ok (.cond (.orC a b), lk ∪ rk)
    | _, _ => .error .typeError
  | .cmp op l r => do
    let (lc, lk) ← expression_to_condition keys l
    let (rc, rk) ← expression_to_condition keys r
    let exitKeys := lk ∪ rk
    match op, rc with
    | .eq, .noneP =>
      match lc with
      | .operand o => .ok (.cond (.notExistsC o), exitKeys)
      | _ => .error .attributeError
    | .ne, .noneP =>
      match lc with
      | .operand o => .ok (.cond (.existsC o), exitKeys)
      | _ => .error .attributeError
    | _, _ => (apply_cmp op lc rc).map (fun c => (c, exitKeys))
  | .symbol name =>
    if name ∈ keys then .ok (.operand (.key name), {name})
    else .ok (.operand (.attr name), ∅)
  | .nullE => .ok (.noneP, ∅)
  | .dtE d => .ok (.val (.dec (to_epoch_decimal d)), ∅)
  | .strE s => .ok (.val (.str s), ∅)
  | .floatE q =>
    if q.den = 1 then .ok (.val (.int q.num), ∅) else .ok (.val (.float q), ∅)
  | .containsE c m => do
    let (cc, ck) ← expression_to_condition keys c
    let (mc, mk) ← expression_to_condition keys m
    match cc, mc with
    | .operand o, .val v => .ok (.cond (.containsC o v), ck ∪ mk)
    | _, _ => .error .attributeError

/-- C4 counterexample: compiling a comparison of a plain (non-TTL)
attribute against a datetime literal still yields the epoch Decimal 86400,
not the datetime value passed through unchanged, so the claimed
TTL-only conversion is refuted.  The compiler has no notion of the
destination field at all. -/
theorem dt_literal_not_passed_through :
    expression_to_condition ∅
        (.cmp .eq (.symbol "timestamp") (.dtE ⟨86400, false⟩)) =
      .ok (.cond (.eqC (.attr "timestamp") (.dec 86400)), ∅) ∧
    (DVal.dec 86400) ≠ (DVal.dt ⟨86400, false⟩) := by
  refine ⟨by rfl, by decide⟩

/-- C4 amended: the compiler converts every datetime literal to the
epoch-seconds Decimal, for any keys set and any datetime value, aware or
naive; no pass-through branch exists. -/
theorem dt_literal_always_epoch (keys : Finset String) (d : PyDateTime) :
    expression_to_condition keys (.dtE d) = .ok (.val (.dec (to_epoch_decimal d)), ∅) := by
  rfl

/-! ### The index planner (pydanticrud/backends/dynamodb.py, lines 253-271)

The index_map dictionary maps key tuples to an index name (None for the
primary key); it is modelled as an association list in declaration order.
Backend._get_best_index filters map keys whose set is a subset of the used
keys, sorts them with the Python built-in sorted (ascending and stable) by
score_index, and returns the index_map entry of the first element; the
inner score_index returns 3 on an exact set match, 2 when the tuple is
longer than the used-key set, and otherwise raises NotImplementedError,
which sorted propagates.
-/

/-- Model of the inner score_index closure. -/
def score_index (keys_used : Finset String) (index : List String) : Except DynErr Nat :=
  if index.toFinset = keys_used then .ok 3
  else if index.length > keys_used.card then .ok 2
  else .error .notImplementedError

/-- Stable insertion into a score-sorted list: an element goes after every
earlier element with an equal or smaller score, matching the stability of
the Python built-in sorted. -/
def ordered_insert (x : Nat × List String) :
    List (Nat × List String) → List (Nat × List String)
  | [] => [x]
  | y :: ys => if x.1 ≤ y.1 then x :: y :: ys else y :: ordered_insert x ys

/-- Stable ascending sort by score, processing elements left to right. -/
def sort_by_score : List (Nat × List String) → List (Nat × List String)
  | [] => []
  | x :: xs => ordered_insert x (sort_by_score xs)

/-- Dictionary access index_map[k]: the first entry with this tuple, a
KeyError when absent (unreachable because candidates come from the map). -/
def dict_find (index_map : List (List String × Option String)) (k : List String) :
    Except DynErr (Option String) :=
  match index_map.find? (fun p => p.1 == k) with
  | some p => .ok p.2
  | none => .error .keyError

/-- The candidate tuples: index_map keys whose set is contained in the
used-key set, in declaration order. -/
def candidate_indexes (index_map : List (List String × Option String))
    (keys_used : Finset String) : List (List String) :=
  (index_map.map Prod.fst).filter (fun k => decide (k.toFinset ⊆ keys_used))

/-- Score every candidate in order, decorating it with its score; the
first raising score_index call propagates, exactly as inside the Python
sorted call. -/
def score_candidates (keys_used : Finset String) :
    List (List String) → Except DynErr (List (Nat × List String))
  | [] => .ok []
  | k :: ks =>
    match score_index keys_used k with
    | .error e => .error e
    | .ok sc =>
      match score_candidates keys_used ks with
      | .error e => .error e
      | .ok rest => .ok ((sc, k) :: rest)

/-- Model of Backend._get_best_index.  Scoring every candidate happens
before the sort (the Python sorted computes every key first), so a raising
score aborts the whole call. -/
def get_best_index (index_map : List (List String × Option String))
    (keys_used : Finset String) : Except DynErr (Option String) :=
  match score_candidates keys_used (candidate_indexes index_map keys_used) with
  | .error e => .error e
  | .ok scored =>
    match sort_by_score scored with
    | [] => .ok none
    | (_, k) :: _ => dict_find index_map k

theorem score_candidates_all_exact (u : Finset String) :
    ∀ l : List (List String), (∀ k ∈ l, k.toFinset = u) →
      score_candidates u l = .ok (l.map (fun k => (3, k))) := by
  intro l
  induction l with
  | nil => intro _; rfl
  | cons k ks ih =>
    intro h
    have hk : score_index u k = .ok 3 := by
      simp [score_index, h k (by simp)]
    have hks := ih (fun x hx => h x (by simp [hx]))
    simp [score_candidates, hk, hks]

theorem sort_by_score_all_equal :
    ∀ l : List (Nat × List String), (∀ x ∈ l, x.1 = 3) → sort_by_score l = l := by
  intro l
  induction l with
  | nil => intro _; rfl
  | cons x xs ih =>
    intro h
    have hxs := ih (fun y hy => h y (by simp [hy]))
    have hx : x.1 = 3 := h x (by simp)
    rw [sort_by_score, hxs]
    cases xs with
    | nil => rfl
    | cons y ys =>
      have hy : y.1 = 3 := h y (by simp)
      simp [ordered_insert, hx, hy]

/-- C1 amended: when every candidate tuple-set is exactly the used-key
set, every candidate scores 3 and the planner returns the index_map entry
of the first candidate in declaration order (the stable sort keeps
declaration order among equal scores), which is the only deterministic
selection the code can complete; any proper-subset candidate instead
aborts the call with NotImplementedError (see
get_best_index_subset_candidate_raises). -/
theorem get_best_index_all_exact (index_map : List (List String × Option String))
    (keys_used : Finset String) (c : List String) (rest : List (List String))
    (h1 : candidate_indexes index_map keys_used = c :: rest)
    (h2 : ∀ k ∈ c :: rest, k.toFinset = keys_used) :
    get_best_index index_map keys_used = dict_find index_map c := by
  have hm := score_candidates_all_exact keys_used (c :: rest) h2
  have hs : sort_by_score ((c :: rest).map (fun k => (3, k))) =
      (c :: rest).map (fun k => (3, k)) := by
    apply sort_by_score_all_equal
    intro x hx
    simp only [List.mem_map] at hx
    obtain ⟨k, _, hk⟩ := hx
    rw [← hk]
  rw [get_best_index, h1, hm]
  simp only [List.map_cons] at hs ⊢
  rw [hs]

/-- Witness for get_best_index_all_exact: with the primary key tuple
(account, sort_date_key) and the local index by-thread on
(account, thread_id), a query using account and thread_id selects
by-thread. -/
theorem get_best_index_all_exact_witness :
    get_best_index
        [(["account", "sort_date_key"], none), (["account", "thread_id"], some "by-thread")]
        {"account", "thread_id"} = .ok (some "by-thread") :=
  (get_best_index_all_exact
    [(["account", "sort_date_key"], none), (["account", "thread_id"], some "by-thread")]
    {"account", "thread_id"} ["account", "thread_id"] []
    (by decide) (by decide)).trans (by decide)

/-- C1 counterexample: with a table whose primary hash key is name and a
global index by-id on (id,), a used-key set of name and id admits the two
candidates (name,) and (id,), both proper subsets; the claim says each
scores 2 and the highest-scoring one is selected, but score_index falls
through both branches and the call raises NotImplementedError instead of
selecting anything. -/
theorem get_best_index_subset_candidate_raises :
    candidate_indexes [(["name"], none), (["id"], some "by-id")] {"name", "id"} =
      [["name"], ["id"]] ∧
    score_index {"name", "id"} ["name"] = .error .notImplementedError ∧
    get_best_index [(["name"], none), (["id"], some "by-id")] {"name", "id"} =
      .error .notImplementedError := by
  refine ⟨by decide, by decide, by decide⟩

/-! ### The query planner (pydanticrud/backends/dynamodb.py, lines 317-380)

Backend.query is modelled up to the point where it would call table.query
or table.scan: the model returns either the fully assembled request
parameters (tagged with which call would be made) or the exception raised
before any request goes out.
-/

structure BackendCfg where
  hash_key : String
  range_key : Option String
  possible_keys : Finset String
  index_map : List (List String × Option String)

structure QueryParams where
  limit : Option Nat
  exclusiveStartKey : Option String
  filterExpression : Option CompiledPart
  keyConditionExpression : Option CompiledPart
  scanIndexForward : Option Bool
  indexName : Option String
deriving DecidableEq, Repr

/-- The backend request query would issue, had it not raised first. -/
inductive Request where
  | queryReq (p : QueryParams)
  | scanReq (p : QueryParams)
deriving DecidableEq, Repr

inductive QueryErr where
  | conditionCheckFailed (msg : String)
  | raised (e : DynErr)
deriving DecidableEq, Repr

/-- Python truthiness of a compiled part (used by the if f_expr check). -/
def compiled_truthy : CompiledPart → Bool
  | .cond _ => true
  | .operand _ => true
  | .noneP => false
  | .val (.int n) => n ≠ 0
  | .val (.float q) => q ≠ 0
  | .val (.dec q) => q ≠ 0
  | .val (.str s) => s ≠ ""
  | .val (.dt _) => true

/-- The key set of the primary table, hash key plus range key when
present; the Python literal is a two-element set holding None in the
second slot when there is no range key, and None never occurs among the
string key names. -/
def primary_key_set (cfg : BackendCfg) : Finset String :=
  match cfg.range_key with
  | some r => {cfg.hash_key, r}
  | none => {cfg.hash_key}

/-- Model of Backend.query up to the backend call (dynamodb.py lines
317-380).  Compilation errors and the planner NotImplementedError
propagate as raised exceptions; the two guard branches raise
ConditionCheckFailed before any request exists. -/
def query_plan (cfg : BackendCfg) (query_expr filter_expr : Option RuleExpr)
    (limit : Option Nat) (exclusive_start_key : Option String) (order : String) :
    Except QueryErr Request :=
  let fcomp : Except QueryErr (Option CompiledPart) :=
    match filter_expr with
    | none => .ok none
    | some fe =>
      match expression_to_condition ∅ fe with
      | .error e => .error (.raised e)
      | .ok (c, _) => .ok (some c)
  match fcomp with
  | .error e => .error e
  | .ok fq =>
    let params : QueryParams :=
      { limit := limit
        exclusiveStartKey := exclusive_start_key
        filterExpression :=
          match fq with
          | some c => if compiled_truthy c then some c else none
          | none => none
        keyConditionExpression := none
        scanIndexForward := none
        indexName := none }
    match query_expr with
    | some qe =>
      match expression_to_condition cfg.possible_keys qe with
      | .error e => .error (.raised e)
      | .ok (q, keys_used) =>
        if keys_used = ∅ ∧ filter_expr = none then
          .error (.conditionCheckFailed
            "No keys in query expression. Use a filter expression or add an index.")
        else
          match get_best_index cfg.index_map keys_used with
          | .error e => .error (.raised e)
          | .ok index_name =>
            let params :=
              { params with
                  keyConditionExpression := some q
                  scanIndexForward := if order ≠ "asc" then some false else none }
            match index_name with
            | some n => .ok (.queryReq { params with indexName := some n })
            | none =>
              if ¬ (keys_used ⊆ primary_key_set cfg) then
                .error (.conditionCheckFailed
                  "No keys in expression. Enable scan or add an index.")
              else .ok (.queryReq params)
    | none =>
      if order ≠ "asc" then
        .error (.conditionCheckFailed "Scans do not support reverse order.")
      else .ok (.scanReq params)

/-- C6: a query whose expression compiles with zero key-eligible
attributes and that has no filter expression raises ConditionCheckFailed;
no request value exists on this path, so nothing is sent and in particular
the call never degrades into a scan. -/
theorem query_no_keys_fails (cfg : BackendCfg) (qe : RuleExpr) (c : CompiledPart)
    (limit : Option Nat) (esk : Option String) (order : String)
    (h : expression_to_condition cfg.possible_keys qe = .ok (c, ∅)) :
    query_plan cfg (some qe) none limit esk order =
      .error (.conditionCheckFailed
        "No keys in query expression. Use a filter expression or add an index.") := by
  simp [query_plan, h]

/-- Witness for query_no_keys_fails: a table with hash key name, queried
only on the non-key attribute timestamp with no filter expression. -/
theorem query_no_keys_fails_witness :
    query_plan ⟨"name", none, {"name"}, [(["name"], none)]⟩
        (some (.cmp .le (.symbol "timestamp") (.strE "2020-01-01")))
        none none none "asc" =
      .error (.conditionCheckFailed
        "No keys in query expression. Use a filter expression or add an index.") :=
  query_no_keys_fails ⟨"name", none, {"name"}, [(["name"], none)]⟩
    (.cmp .le (.symbol "timestamp") (.strE "2020-01-01"))
    (.cond (.lteC (.attr "timestamp") (.str "2020-01-01")))
    none none "asc" (by rfl)

/-! ### build_update_condition_with_revision and VersionedBaseModel.save
(app/models/base.py, lines 28-50 and 171-193)

Attribute values are modelled by AVal; a UUID is modelled by its string
form.  The crucial point of fidelity is the Python boolean operator: the
source combines boto condition objects with the and keyword, and
Python evaluates a-and-b to b whenever a is truthy (every boto condition
object is truthy), so each such combination discards its left operand.
The py_and definition reproduces exactly that.
-/

inductive AVal where
  | s (v : String)
  | i (v : Int)
  | b (v : Bool)
deriving DecidableEq, Repr

/-- Condition objects built by app/models/base.py. -/
inductive AppCond where
  | keyEq (name : String) (v : AVal)
  | attrEq (name : String) (v : AVal)
  | attrNe (name : String) (v : AVal)
  | attrNotExists (name : String)
deriving DecidableEq, Repr

/-- A Python value that is either a boto condition object or the literal
False assigned on the rejection branch. -/
inductive CondVal where
  | condV (c : AppCond)
  | falseV
deriving DecidableEq, Repr

/-- Python and on these values: a truthy left operand makes the expression
evaluate to the right operand; the only falsy value here is False. -/
def py_and (a b : CondVal) : CondVal :=
  match a with
  | .falseV => .falseV
  | .condV _ => b

/-- Model of build_update_condition (app/models/base.py lines 28-29). -/
def build_update_condition (hash_key : String) (key_value : AVal) : CondVal :=
  .condV (.keyEq hash_key key_value)

/-- Model of build_update_condition_with_revision (app/models/base.py
lines 32-50), with the UUID revision as an optional string. -/
def build_update_condition_with_revision (hash_key : String) (key_value : AVal)
    (revision : Option String) (field : Option String) (value : Option AVal)
    (allow_create : Bool) : CondVal :=
  let condition := build_update_condition hash_key key_value
  match revision with
  | some r =>
    let condition := py_and condition (.condV (.attrEq "revision" (.s r)))
    match field, value with
    | some f, some v => py_and condition (.condV (.attrNe f v))
    | _, _ => condition
  | none =>
    if allow_create then py_and condition (.condV (.attrNotExists "revision"))
    else .falseV

/-- Does the emitted predicate contain an equality on the given hash key?
The condition grammar here has no conjunction node (py_and returns one of
its operands), so this is a plain constructor test. -/
def has_key_equality (hash_key : String) : CondVal → Bool
  | .condV (.keyEq n _) => n == hash_key
  | _ => false

/-- C2: evaluating the condition builder on each of its three branches.
With a revision token the emitted predicate is only the revision equality;
with allow_create it is only the revision-absent test; on the rejection
branch it is the literal False.  The hash-key equality conjunct survives
in none of them, because the Python and keyword discards the truthy left
operand. -/
theorem build_update_condition_drops_key_equality :
    build_update_condition_with_revision "id" (.s "k") (some "3f2a") none none false =
      .condV (.attrEq "revision" (.s "3f2a")) ∧
    build_update_condition_with_revision "id" (.s "k") none none none true =
      .condV (.attrNotExists "revision") ∧
    build_update_condition_with_revision "id" (.s "k") none none none false =
      .falseV ∧
    has_key_equality "id"
      (build_update_condition_with_revision "id" (.s "k") (some "3f2a") none none false) =
        false ∧
    has_key_equality "id"
      (build_update_condition_with_revision "id" (.s "k") none none none true) = false := by
  refine ⟨rfl, rfl, rfl, rfl, rfl⟩

/-! The versioned save.  The table state is modelled as the slot for the
record key in question: put_item with the item key only ever reads and
replaces that one slot.  Items are attribute dictionaries. -/

abbrev Item := List (String × AVal)

/-- Dictionary lookup of an attribute. -/
def attr_get (item : Item) (name : String) : Option AVal :=
  match item.find? (fun p => p.1 == name) with
  | some p => some p.2
  | none => none

/-- DynamoDB evaluation of a condition against the current item (none
when the key does not exist): attribute_not_exists holds on a missing
item or attribute; every comparison against a missing item or attribute
fails. -/
def eval_cond (c : AppCond) (item : Option Item) : Bool :=
  match c, item with
  | .keyEq n v, some it => attr_get it n == some v
  | .keyEq _ _, none => false
  | .attrEq n v, some it => attr_get it n == some v
  | .attrEq _ _, none => false
  | .attrNe n v, some it =>
    match attr_get it n with
    | some w => w != v
    | none => false
  | .attrNe _ _, none => false
  | .attrNotExists n, some it => attr_get it n == none
  | .attrNotExists _, none => true

inductive PutErr where
  | conditionalCheckFailed
  | paramValidation
deriving DecidableEq, Repr

/-- Model of put_item with an optional ConditionExpression on the single
key slot; passing the literal False instead of a condition object is a
boto parameter validation error. -/
def put_item (table : Option Item) (data : Item) (cond : Option CondVal) :
    Except PutErr (Option Item) :=
  match cond with
  | none => .ok (some data)
  | some (.condV c) =>
    if eval_cond c table then .ok (some data) else .error .conditionalCheckFailed
  | some .falseV => .error .paramValidation

inductive VSaveResult where
  | saved (created : Bool)
  | revisionMismatch (msg : String)
  | otherClientError
deriving DecidableEq, Repr

/-- Model of VersionedBaseModel.save (app/models/base.py lines 171-193).
The fields argument is the record dictionary after the revision key was
popped, old_revision the popped value, new_revision the fresh uuid4.
Returns the Python return value or exception together with the new table
slot. -/
def versioned_save (hash_key : String) (fields : Item) (self_key_value : AVal)
    (old_revision : Option String) (new_revision : String) (table : Option Item) :
    VSaveResult × Option Item :=
  let data : Item := fields ++ [("revision", .s new_revision)]
  let condition := build_update_condition_with_revision hash_key self_key_value
    old_revision none none true
  match put_item table data (some condition) with
  | .ok t2 => (.saved old_revision.isNone, t2)
  | .error .conditionalCheckFailed =>
    (.revisionMismatch
      (if old_revision.isSome then "Provided revision is out of date"
       else "Must provide a revision"), table)
  | .error .paramValidation => (.otherClientError, table)

/-- C3: starting from a table slot that is empty, saving a record whose
revision is None succeeds, creates the item (with the fresh revision
stored) and returns True; saving the same record with revision None again
against the resulting state raises RevisionMismatch with the
Must-provide-a-revision message, because the revision attribute now
exists and the revision-absent precondition fails. -/
theorem versioned_save_twice (hash_key : String) (fields : Item) (v : AVal)
    (r1 r2 : String)
    (hfields : fields.find? (fun p => p.1 == "revision") = none) :
    (versioned_save hash_key fields v none r1 none).1 = .saved true ∧
    (versioned_save hash_key fields v none r1 none).2 =
      some (fields ++ [("revision", .s r1)]) ∧
    (versioned_save hash_key fields v none r2
        (versioned_save hash_key fields v none r1 none).2).1 =
      .revisionMismatch "Must provide a revision" := by
  have hcond : build_update_condition_with_revision hash_key v none none none true =
      .condV (.attrNotExists "revision") := rfl
  have hfirst : versioned_save hash_key fields v none r1 none =
      (.saved true, some (fields ++ [("revision", .s r1)])) := by
    simp [versioned_save, hcond, put_item, eval_cond]
  refine ⟨by rw [hfirst], by rw [hfirst], ?_⟩
  rw [hfirst]
  have hget : attr_get (fields ++ [("revision", .s r1)]) "revision" = some (.s r1) := by
    simp [attr_get, List.find?_append, hfields]
  simp [versioned_save, hcond, put_item, eval_cond, hget]

/-- Witness for versioned_save_twice: a record with one ordinary field. -/
theorem versioned_save_twice_witness :
    (versioned_save "name" [("flag", .b true)] (.s "x") none "r1" none).1 =
      .saved true ∧
    (versioned_save "name" [("flag", .b true)] (.s "x") none "r2"
        (versioned_save "name" [("flag", .b true)] (.s "x") none "r1" none).2).1 =
      .revisionMismatch "Must provide a revision" :=
  ⟨(versioned_save_twice "name" [("flag", .b true)] (.s "x") "r1" "r2" (by rfl)).1,
   (versioned_save_twice "name" [("flag", .b true)] (.s "x") "r1" "r2" (by rfl)).2.2⟩

/-! ### The rule-to-SQL expression compiler and save
(pydanticrud/backends/sqlite.py, lines 76-127 and 162-189)

The columns dictionary maps each declared field name to its
sqlite_native flag (ColumnMetaData reduced to the only part the compiler
reads).  A compiled expression is an optional SQL fragment (None for the
null symbol and the null literal) plus the parameter tuple.  The claimed
UnqueryableField exception does not exist anywhere in the repository; the
error type below still carries a constructor for it so that the claim can
be stated and refuted.
-/

inductive SParam where
  | s (v : String)
  | i (v : Int)
  | f (v : Rat)
  | dt (v : PyDateTime)
deriving DecidableEq, Repr

inductive SqlErr where
  | syntaxError (msg : String)
  | unqueryableField (msg : String)
  | keyError
  | indexError
  | attributeError
deriving DecidableEq, Repr

inductive SLogicOp where
  | andO | orO
deriving DecidableEq, Repr

inductive SCmpOp where
  | eq | ne | lt | gt
deriving DecidableEq, Repr

inductive SArithOp where
  | lt | gt | lte | gte
deriving DecidableEq, Repr

/-- AST of the rule_engine nodes the sqlite compiler handles. -/
inductive SqlExpr where
  | logicE (op : SLogicOp) (l r : SqlExpr)
  | cmpE (op : SCmpOp) (l r : SqlExpr)
  | arithE (op : SArithOp) (l r : SqlExpr)
  | containsE (container member : SqlExpr)
  | symbolE (name : String)
  | nullE
  | strE (v : String)
  | dtE (v : PyDateTime)
  | floatE (q : Rat)
deriving DecidableEq, Repr

def slogic_str : SLogicOp → String
  | .andO => "AND"
  | .orO => "OR"

def scmp_str : SCmpOp → String
  | .eq => "="
  | .ne => "!="
  | .lt => "<"
  | .gt => ">"

def sarith_str : SArithOp → String
  | .lt => "<"
  | .gt => ">"
  | .lte => "<="
  | .gte => ">="

/-- Python str.strip with a double-quote argument: remove leading and
trailing double-quote characters. -/
def strip_dquotes (s : String) : String :=
  ((s.toList.dropWhile (fun c => c == Char.ofNat 34)).reverse.dropWhile
    (fun c => c == Char.ofNat 34)).reverse.asString

/-- Format an optional fragment inside an f-string: Python renders None
as the text None. -/
def fmt_frag (o : Option String) : String :=
  match o with
  | some s => s
  | none => "None"

/-- Model of Backend._expression_to_condition (sqlite.py lines 76-124)
over the columns map (field name, sqlite_native).  Returns the SQL
fragment and parameter tuple, or the exception raised. -/
def sql_expression_to_condition (columns : List (String × Bool)) :
    SqlExpr → Except SqlErr (Option String × List SParam)
  | .logicE op l r => do
    let (lf, lp) ← sql_expression_to_condition columns l
    let (rf, rp) ← sql_expression_to_condition columns r
    .ok (some ("(" ++ fmt_frag lf ++ " " ++ slogic_str op ++ " " ++ fmt_frag rf ++ ")"),
      lp ++ rp)
  | .cmpE op l r => do
    let (lf, lp) ← sql_expression_to_condition columns l
    let (rf, rp) ← sql_expression_to_condition columns r
    match rf with
    | none =>
      match op with
      | .eq => .ok (some (fmt_frag lf ++ " IS NULL"), lp ++ rp)
      | .ne => .ok (some (fmt_frag lf ++ " IS NOT NULL"), lp ++ rp)
      | _ => .error .keyError
    | some rs => .ok (some (fmt_frag lf ++ " " ++ scmp_str op ++ " " ++ rs), lp ++ rp)
  | .arithE op l r => do
    let (lf, lp) ← sql_expression_to_condition columns l
    let (rf, rp) ← sql_expression_to_condition columns r
    .ok (some (fmt_frag lf ++ " " ++ sarith_str op ++ " " ++ fmt_frag rf), lp ++ rp)
  | .containsE c m => do
    let (cf, cp) ← sql_expression_to_condition columns c
    let (mf, mp) ← sql_expression_to_condition columns m
    match mp with
    | [] => .error .indexError
    | p :: _ =>
      match p with
      | .s v =>
        .ok (some (fmt_frag cf ++ " like " ++ fmt_frag mf),
          cp ++ [.s ("%" ++ strip_dquotes v ++ "%")])
      | _ => .error .attributeError
  | .symbolE name =>
    if name == "null" then .ok (none, [])
    else
      match columns.find? (fun p => p.1 == name) with
      | none => .error (.syntaxError ("Cannot query on non-existent field: " ++ name))
      | some col =>
        if col.2 = false then
          .error (.syntaxError ("Cannot query on non-native field: " ++ name))
        else .ok (some name, [])
  | .nullE => .ok (none, [])
  | .strE v => .ok (some "?", [.s v])
  | .dtE v => .ok (some "?", [.dt v])
  | .floatE q =>
    if q.den = 1 then .ok (some "?", [.i q.num]) else .ok (some "?", [.f q])

/-- True when the computation raised the (spec-invented) UnqueryableField
exception. -/
def raised_unqueryable (r : Except SqlErr (Option String × List SParam)) : Bool :=
  match r with
  | .error (.unqueryableField _) => true
  | _ => false

/-- C8 counterexample: a bare symbol naming the declared but non-native
field data compiles to a SyntaxError, and a bare symbol naming the
undeclared field ghost likewise; neither raises UnqueryableField, which
does not exist in the repository (the sqlite tests themselves expect
SyntaxError). -/
theorem sqlite_symbol_raises_syntax_error_not_unqueryable :
    sql_expression_to_condition [("id", true), ("data", false)] (.symbolE "data") =
      .error (.syntaxError "Cannot query on non-native field: data") ∧
    sql_expression_to_condition [("id", true), ("data", false)] (.symbolE "ghost") =
      .error (.syntaxError "Cannot query on non-existent field: ghost") ∧
    raised_unqueryable
      (sql_expression_to_condition [("id", true), ("data", false)] (.symbolE "data")) =
        false ∧
    raised_unqueryable
      (sql_expression_to_condition [("id", true), ("data", false)] (.symbolE "ghost")) =
        false := by
  refine ⟨by decide, by decide, by decide, by decide⟩

/-- C8 amended: for every columns map and every bare symbol operand other
than the null keyword, an undeclared field name fails compilation with
SyntaxError (Cannot query on non-existent field), a declared
backend-non-native field fails with SyntaxError (Cannot query on
non-native field), and only declared native fields compile, to the bare
column name with no parameters. -/
theorem sqlite_symbol_validation (columns : List (String × Bool)) (name : String)
    (hnull : (name == "null") = false) :
    (columns.find? (fun p => p.1 == name) = none →
      sql_expression_to_condition columns (.symbolE name) =
        .error (.syntaxError ("Cannot query on non-existent field: " ++ name))) ∧
    (∀ col, columns.find? (fun p => p.1 == name) = some col → col.2 = false →
      sql_expression_to_condition columns (.symbolE name) =
        .error (.syntaxError ("Cannot query on non-native field: " ++ name))) ∧
    (∀ col, columns.find? (fun p => p.1 == name) = some col → col.2 = true →
      sql_expression_to_condition columns (.symbolE name) = .ok (some name, [])) := by
  refine ⟨?_, ?_, ?_⟩
  · intro h
    simp [sql_expression_to_condition, hnull, h]
  · intro col h hn
    simp [sql_expression_to_condition, hnull, h, hn]
  · intro col h hn
    simp [sql_expression_to_condition, hnull, h, hn]

/-- Witness for sqlite_symbol_validation on a concrete columns map:
the undeclared field ghost and the non-native field data are rejected
with the two SyntaxError messages and the native field id compiles. -/
theorem sqlite_symbol_validation_witness :
    sql_expression_to_condition [("id", true), ("data", false)] (.symbolE "ghost") =
      .error (.syntaxError "Cannot query on non-existent field: ghost") ∧
    sql_expression_to_condition [("id", true), ("data", false)] (.symbolE "data") =
      .error (.syntaxError "Cannot query on non-native field: data") ∧
    sql_expression_to_condition [("id", true), ("data", false)] (.symbolE "id") =
      .ok (some "id", []) :=
  ⟨(sqlite_symbol_validation [("id", true), ("data", false)] "ghost" (by decide)).1
      (by decide),
   (sqlite_symbol_validation [("id", true), ("data", false)] "data" (by decide)).2.1
      ("data", false) (by decide) (by decide),
   (sqlite_symbol_validation [("id", true), ("data", false)] "id" (by decide)).2.2
      ("id", true) (by decide) (by decide)⟩

/-! ### Backend.save return values (pydanticrud/backends/sqlite.py lines
162-189 and pydanticrud/backends/dynamodb.py lines 406-423)

The sqlite save reads the existing row (DoesNotExist drives the branch),
optionally checks the caller condition with Rule.matches (modelled as a
predicate on the old row), then updates or inserts, returning True from
both branches.  The DynamoDB save issues put_item and returns whether the
HTTP status of the successful response is 200; put_item overwrites any
existing item and still answers 200.
-/

abbrev SRow := List (String × SParam)

/-- Model of the sqlite Backend.save: the table argument is the row slot
for the record key, the condition an optional predicate (Rule.matches).
Returns the Python return value and the new slot, or ConditionCheckFailed.
-/
def sqlite_save (table : Option SRow) (row : SRow)
    (condition : Option (SRow → Bool)) : Except Unit (Bool × Option SRow) :=
  match table with
  | some old =>
    match condition with
    | some matches2 =>
      if matches2 old then .ok (true, some row) else .error ()
    | none => .ok (true, some row)
  | none => .ok (true, some row)

/-- Model of the DynamoDB put_item HTTP response status for a successful
unconditioned put: always 200, whether or not the key already existed. -/
def dynamo_put_status (_table : Option Item) (_data : Item) : Nat :=
  200

/-- Model of the DynamoDB Backend.save without a condition: put the item
and return (status == 200) together with the new slot content. -/
def dynamo_save (table : Option Item) (data : Item) : Bool × Option Item :=
  (dynamo_put_status table data == 200, some data)

/-- C9 counterexample: saving over an already-existing record returns
True in both backends, so True does not mean newly created.  The sqlite
save takes its update branch on the occupied slot and returns True; the
DynamoDB save returns True because the overwriting put still answers
HTTP 200. -/
theorem save_true_on_overwrite :
    sqlite_save (some [("id", .i 1), ("total", .f 2)]) [("id", .i 1), ("total", .f 3)]
        none = .ok (true, some [("id", .i 1), ("total", .f 3)]) ∧
    dynamo_save (some [("name", .s "a")]) [("name", .s "a"), ("value", .i 9)] =
      (true, some [("name", .s "a"), ("value", .i 9)]) := by
  refine ⟨rfl, rfl⟩

/-- C9 amended: an unconditioned record-level save returns True whenever
the write succeeds, on the insert branch and on the overwrite branch
alike; the boolean reports success, not newly-created. -/
theorem save_returns_true_on_success (stable : Option SRow) (srow : SRow)
    (dtable : Option Item) (ditem : Item) :
    sqlite_save stable srow none = .ok (true, some srow) ∧
    dynamo_save dtable ditem = (true, some ditem) := by
  refine ⟨?_, rfl⟩
  cases stable with
  | none => rfl
  | some old => rfl

/-! ### Python runtime values for the field serializer
(pydanticrud/backends/dynamodb.py, lines 85-100 and 151-203)

PyVal models the Python values the serializer dispatches on: None, bool,
int, float, Decimal, str, datetime, list and dict.  Floats are modelled as
the exact rationals they denote (every finite binary float is a rational
with a power-of-two denominator, and Python guarantees that str and float
round-trip exactly on them).  The string primitives below model the
Python built-ins the SERIALIZE_MAP and DESERIALIZE_MAP entries call:
str(), float(), bool(), json.dumps, json.loads and datetime.isoformat.
-/

inductive PyVal where
  | noneV
  | bool (b : Bool)
  | int (n : Int)
  | float (q : Rat)
  | dec (q : Rat)
  | str (s : String)
  | dt (d : PyDateTime)
  | list (xs : List PyVal)
  | dict (xs : List (String × PyVal))

inductive PyErr where
  | valueError
  | typeError
  | keyError
  | attributeError
deriving DecidableEq, Repr

/-- Left-pad a digit string with zeros to the given length. -/
def pad_zeros (s : String) (n : Nat) : String :=
  if s.length < n then String.mk (List.replicate (n - s.length) (Char.ofNat 48)) ++ s
  else s

/-- Python str() of a float: the shortest exact decimal form.  A finite
float is a rational whose denominator divides a power of two, so it has a
finite decimal expansion; the integral case prints a trailing point-zero
exactly as Python does.  Rationals with no finite decimal expansion
cannot arise from floats; they fall back to a fraction rendering. -/
def float_repr (q : Rat) : String :=
  if q.den = 1 then toString q.num ++ ".0"
  else
    match (List.range 80).find? (fun k => (10 : Nat) ^ k % q.den = 0) with
    | some k =>
      let scaled := q.num.natAbs * ((10 : Nat) ^ k / q.den)
      let sign := if q.num < 0 then "-" else ""
      let digits := pad_zeros (toString scaled) (k + 1)
      sign ++ digits.take (digits.length - k) ++ "." ++ digits.drop (digits.length - k)
    | none => toString q.num ++ "/" ++ toString q.den

def is_ascii_digit (c : Char) : Bool :=
  Char.ofNat 48 ≤ c && c ≤ Char.ofNat 57

def digits_to_nat (l : List Char) : Nat :=
  l.foldl (fun a c => a * 10 + (c.toNat - 48)) 0

/-- Python float() applied to a string: optional sign, then digits with at
most one decimal point (whitespace, underscores, exponents and the
inf/nan spellings of the full Python grammar are outside the fragment the
code ever produces and parse as ValueError here). -/
def parse_float_string (s : String) : Except PyErr Rat :=
  let l := s.toList
  let (sign, rest) :=
    match l with
    | c :: t =>
      if c = Char.ofNat 45 then ((-1 : Int), t)
      else if c = Char.ofNat 43 then ((1 : Int), t)
      else ((1 : Int), l)
    | [] => ((1 : Int), l)
  let intDigits := rest.takeWhile is_ascii_digit
  let rest2 := rest.dropWhile is_ascii_digit
  match rest2 with
  | [] =>
    if intDigits.isEmpty then .error .valueError
    else .ok (mkRat (sign * (digits_to_nat intDigits : Int)) 1)
  | c :: frac =>
    if c = Char.ofNat 46 then
      let fracDigits := frac.takeWhile is_ascii_digit
      if (frac.dropWhile is_ascii_digit).isEmpty ∧
          ¬ (intDigits.isEmpty ∧ fracDigits.isEmpty) then
        .ok (mkRat
          (sign * ((digits_to_nat intDigits * 10 ^ fracDigits.length +
            digits_to_nat fracDigits : Nat) : Int))
          (10 ^ fracDigits.length))
      else .error .valueError
    else .error .valueError

/-- The opening brace character, written by code point to keep braces out
of string literals. -/
def lbrace : String := String.singleton (Char.ofNat 123)

def rbrace : String := String.singleton (Char.ofNat 125)

def dquote : Char := Char.ofNat 34

def backslash : Char := Char.ofNat 92

/-- JSON string escaping for the quote and backslash characters (control
characters never occur in the values under study). -/
def json_escape_char (c : Char) : String :=
  if c = dquote ∨ c = backslash then String.mk [backslash, c] else String.singleton c

def json_quote (s : String) : String :=
  String.singleton dquote ++ String.join (s.toList.map json_escape_char) ++
    String.singleton dquote

/-- JSON rendering of a number exactly as json.dumps prints Python ints
and floats. -/
def json_num_repr (q : Rat) (isInt : Bool) : String :=
  if isInt then toString q.num else float_repr q

mutual

/-- Model of json.dumps with its default separators: comma-space between
items and colon-space after keys.  Decimal and datetime values are not
JSON serializable and raise TypeError. -/
def json_enc : PyVal → Except PyErr String
  | .noneV => .ok "null"
  | .bool b => .ok (if b then "true" else "false")
  | .int n => .ok (toString n)
  | .float q => .ok (float_repr q)
  | .dec _ => .error .typeError
  | .str s => .ok (json_quote s)
  | .dt _ => .error .typeError
  | .list xs =>
    match json_enc_list xs with
    | .ok body => .ok ("[" ++ body ++ "]")
    | .error e => .error e
  | .dict xs =>
    match json_enc_dict xs with
    | .ok body => .ok (lbrace ++ body ++ rbrace)
    | .error e => .error e

def json_enc_list : List PyVal → Except PyErr String
  | [] => .ok ""
  | [x] => json_enc x
  | x :: y :: t =>
    match json_enc x with
    | .error e => .error e
    | .ok a =>
      match json_enc_list (y :: t) with
      | .error e => .error e
      | .ok b => .ok (a ++ ", " ++ b)

def json_enc_dict : List (String × PyVal) → Except PyErr String
  | [] => .ok ""
  | [(k, v)] =>
    match json_enc v with
    | .error e => .error e
    | .ok a => .ok (json_quote k ++ ": " ++ a)
  | (k, v) :: y :: t =>
    match json_enc v with
    | .error e => .error e
    | .ok a =>
      match json_enc_dict (y :: t) with
      | .error e => .error e
      | .ok b => .ok (json_quote k ++ ": " ++ a ++ ", " ++ b)

end

def is_json_ws (c : Char) : Bool :=
  c = Char.ofNat 32 ∨ c = Char.ofNat 9 ∨ c = Char.ofNat 10 ∨ c = Char.ofNat 13

def skip_ws (l : List Char) : List Char :=
  l.dropWhile is_json_ws

/-- Parse the body of a JSON string after the opening quote, returning
the string and the input after the closing quote. -/
def jparse_string : Nat → List Char → List Char → Except PyErr (String × List Char)
  | 0, _, _ => .error .valueError
  | Nat.succ _, _, [] => .error .valueError
  | Nat.succ fuel, acc, c :: rest =>
    if c = dquote then .ok ((acc.reverse).asString, rest)
    else if c = backslash then
      match rest with
      | [] => .error .valueError
      | e :: rest2 => jparse_string fuel (e :: acc) rest2
    else jparse_string fuel (c :: acc) rest

/-- Parse a JSON number: optional minus, digits, optional fraction.  A
number with a fraction part loads as a Python float, otherwise as an int.
-/
def jparse_number (l : List Char) : Except PyErr (PyVal × List Char) :=
  let (neg, rest) :=
    match l with
    | c :: t => if c = Char.ofNat 45 then (true, t) else (false, l)
    | [] => (false, l)
  let intDigits := rest.takeWhile is_ascii_digit
  let rest2 := rest.dropWhile is_ascii_digit
  if intDigits.isEmpty then .error .valueError
  else
    let sign : Int := if neg then -1 else 1
    match rest2 with
    | c :: t =>
      if c = Char.ofNat 46 then
        let fracDigits := t.takeWhile is_ascii_digit
        let rest3 := t.dropWhile is_ascii_digit
        if fracDigits.isEmpty then .error .valueError
        else
          .ok (.float (mkRat
            (sign * ((digits_to_nat intDigits * 10 ^ fracDigits.length +
              digits_to_nat fracDigits : Nat) : Int))
            (10 ^ fracDigits.length)), rest3)
      else .ok (.int (sign * (digits_to_nat intDigits : Int)), rest2)
    | [] => .ok (.int (sign * (digits_to_nat intDigits : Int)), rest2)

mutual

/-- Recursive-descent model of json.loads on the grammar json.dumps
emits; the fuel argument dominates the recursion and is instantiated
large enough in json_dec below.  Exponent notation is outside the
fragment under study. -/
def jparse_val : Nat → List Char → Except PyErr (PyVal × List Char)
  | 0, _ => .error .valueError
  | Nat.succ fuel, l =>
    match skip_ws l with
    | [] => .error .valueError
    | c :: rest =>
      if c = dquote then
        match jparse_string (rest.length + 1) [] rest with
        | .ok (sv, rest2) => .ok (.str sv, rest2)
        | .error e => .error e
      else if c = Char.ofNat 91 then
        match skip_ws rest with
        | c2 :: rest2 =>
          if c2 = Char.ofNat 93 then .ok (.list [], rest2)
          else
            match jparse_elems fuel (skip_ws rest) with
            | .ok (xs, rest3) => .ok (.list xs, rest3)
            | .error e => .error e
        | [] => .error .valueError
      else if c = Char.ofNat 123 then
        match skip_ws rest with
        | c2 :: rest2 =>
          if c2 = Char.ofNat 125 then .ok (.dict [], rest2)
          else
            match jparse_members fuel (skip_ws rest) with
            | .ok (xs, rest3) => .ok (.dict xs, rest3)
            | .error e => .error e
        | [] => .error .valueError
      else if c = Char.ofNat 116 then
        match rest with
        | r :: u :: e :: rest2 =>
          if r = Char.ofNat 114 ∧ u = Char.ofNat 117 ∧ e = Char.ofNat 101 then
            .ok (.bool true, rest2)
          else .error .valueError
        | _ => .error .valueError
      else if c = Char.ofNat 102 then
        match rest with
        | a :: lc :: sc :: e :: rest2 =>
          if a = Char.ofNat 97 ∧ lc = Char.ofNat 108 ∧ sc = Char.ofNat 115 ∧
              e = Char.ofNat 101 then
            .ok (.bool false, rest2)
          else .error .valueError
        | _ => .error .valueError
      else if c = Char.ofNat 110 then
        match rest with
        | u :: l2 :: l3 :: rest2 =>
          if u = Char.ofNat 117 ∧ l2 = Char.ofNat 108 ∧ l3 = Char.ofNat 108 then
            .ok (.noneV, rest2)
          else .error .valueError
        | _ => .error .valueError
      else jparse_number (c :: rest)

/-- Parse one or more comma-separated array elements up to and including
the closing bracket. -/
def jparse_elems : Nat → List Char → Except PyErr (List PyVal × List Char)
  | 0, _ => .error .valueError
  | Nat.succ fuel, l =>
    match jparse_val fuel l with
    | .error e => .error e
    | .ok (v, rest) =>
      match skip_ws rest with
      | c :: rest2 =>
        if c = Char.ofNat 93 then .ok ([v], rest2)
        else if c = Char.ofNat 44 then
          match jparse_elems fuel rest2 with
          | .ok (xs, rest3) => .ok (v :: xs, rest3)
          | .error e => .error e
        else .error .valueError
      | [] => .error .valueError

/-- Parse one or more comma-separated object members up to and including
the closing brace. -/
def jparse_members : Nat → List Char → Except PyErr (List (String × PyVal) × List Char)
  | 0, _ => .error .valueError
  | Nat.succ fuel, l =>
    match skip_ws l with
    | c :: rest =>
      if c = dquote then
        match jparse_string (rest.length + 1) [] rest with
        | .error e => .error e
        | .ok (k, rest2) =>
          match skip_ws rest2 with
          | c2 :: rest3 =>
            if c2 = Char.ofNat 58 then
              match jparse_val fuel rest3 with
              | .error e => .error e
              | .ok (v, rest4) =>
                match skip_ws rest4 with
                | c3 :: rest5 =>
                  if c3 = Char.ofNat 125 then .ok ([(k, v)], rest5)
                  else if c3 = Char.ofNat 44 then
                    match jparse_members fuel rest5 with
                    | .ok (xs, rest6) => .ok ((k, v) :: xs, rest6)
                    | .error e => .error e
                  else .error .valueError
                | [] => .error .valueError
            else .error .valueError
          | [] => .error .valueError
      else .error .valueError
    | [] => .error .valueError

end

/-- Model of json.loads on a string (ValueError stands for the
JSONDecodeError subclass). -/
def json_dec (s : String) : Except PyErr PyVal :=
  match jparse_val (2 * s.length + 4) s.toList with
  | .ok (v, rest) => if (skip_ws rest).isEmpty then .ok v else .error .valueError
  | .error e => .error e

/-! ### Python str, repr, isoformat and truthiness -/

def squote : String := String.singleton (Char.ofNat 39)

/-- Python str() of a Decimal: the plain decimal digits. -/
def dec_digits_str (q : Rat) : String :=
  if q.den = 1 then toString q.num else float_repr q

def pad2 (n : Nat) : String := pad_zeros (toString n) 2

/-- Convert a day count relative to 1970-01-01 to the civil date (the
standard days-to-civil conversion on integer arithmetic). -/
def civil_from_days (z0 : Int) : Int × Nat × Nat :=
  let z := z0 + 719468
  let era := z.fdiv 146097
  let doe := (z - era * 146097).toNat
  let yoe := (doe - doe / 1460 + doe / 36524 - doe / 146096) / 365
  let y := (yoe : Int) + era * 400
  let doy := doe - (365 * yoe + yoe / 4 - yoe / 100)
  let mp := (5 * doy + 2) / 153
  let d := doy - (153 * mp + 2) / 5 + 1
  let m := if mp < 10 then mp + 3 else mp - 9
  (if m ≤ 2 then y + 1 else y, m, d)

/-- Model of datetime.isoformat (and of str(datetime) with a space
separator): civil date, clock time, microseconds when nonzero, and the
utc offset suffix for aware values (aware datetimes in this development
are in UTC, which is the only timezone the repository constructs). -/
def iso_of (d : PyDateTime) (sep : Char) : String :=
  let z : Int := d.secs.num.fdiv d.secs.den
  let fracNum : Int := d.secs.num - z * d.secs.den
  let micro : Int := fracNum * 1000000 / d.secs.den
  let days := z.fdiv 86400
  let sod := (z - days * 86400).toNat
  let c := civil_from_days days
  let base := (if c.1 < 0 then "-" else "") ++ pad_zeros (toString c.1.natAbs) 4 ++
    "-" ++ pad2 c.2.1 ++ "-" ++ pad2 c.2.2 ++ String.singleton sep ++
    pad2 (sod / 3600) ++ ":" ++ pad2 (sod % 3600 / 60) ++ ":" ++ pad2 (sod % 60)
  let base := if micro ≠ 0 then base ++ "." ++ pad_zeros (toString micro.natAbs) 6
    else base
  if d.aware then base ++ "+00:00" else base

mutual

/-- Python repr() on these values (for datetimes only the constructor
shape is rendered; no claim evaluates it). -/
def py_repr : PyVal → String
  | .noneV => "None"
  | .bool b => if b then "True" else "False"
  | .int n => toString n
  | .float q => float_repr q
  | .dec q => "Decimal(" ++ squote ++ dec_digits_str q ++ squote ++ ")"
  | .str s => squote ++ s ++ squote
  | .dt d => "datetime.datetime(" ++ iso_of d (Char.ofNat 32) ++ ")"
  | .list xs => "[" ++ py_repr_list xs ++ "]"
  | .dict xs => lbrace ++ py_repr_dict xs ++ rbrace

def py_repr_list : List PyVal → String
  | [] => ""
  | [x] => py_repr x
  | x :: y :: t => py_repr x ++ ", " ++ py_repr_list (y :: t)

def py_repr_dict : List (String × PyVal) → String
  | [] => ""
  | [(k, v)] => squote ++ k ++ squote ++ ": " ++ py_repr v
  | (k, v) :: y :: t =>
    squote ++ k ++ squote ++ ": " ++ py_repr v ++ ", " ++ py_repr_dict (y :: t)

end

/-- Python str(): the identity on strings, the space-separated isoformat
on datetimes, the plain digits on Decimals, and repr on the rest. -/
def py_str_of : PyVal → String
  | .str s => s
  | .dt d => iso_of d (Char.ofNat 32)
  | .dec q => dec_digits_str q
  | v => py_repr v

/-- Python truthiness of the modelled values. -/
def truthy : PyVal → Bool
  | .noneV => false
  | .bool b => b
  | .int n => n != 0
  | .float q => q.num != 0
  | .dec q => q.num != 0
  | .str s => s != ""
  | .dt _ => true
  | .list xs => !xs.isEmpty
  | .dict xs => !xs.isEmpty

/-! ### SERIALIZE_MAP, DESERIALIZE_MAP and the field loop
(pydanticrud/backends/dynamodb.py, lines 85-100 and 151-203) -/

def py_str_fn (v : PyVal) : Except PyErr PyVal :=
  .ok (.str (py_str_of v))

/-- The lambda d: d.isoformat() entry: any non-datetime raises
AttributeError, which no handler in the field loop catches. -/
def iso_fn : PyVal → Except PyErr PyVal
  | .dt d => .ok (.str (iso_of d (Char.ofNat 84)))
  | _ => .error .attributeError

/-- The lambda d: to-epoch-decimal entry: subtracting the epoch from a
non-datetime raises TypeError. -/
def ttl_fn : PyVal → Except PyErr PyVal
  | .dt d => .ok (.dec (to_epoch_decimal d))
  | _ => .error .typeError

/-- The lambda d: 1 if d else 0 entry. -/
def bool01_fn (v : PyVal) : Except PyErr PyVal :=
  .ok (.int (if truthy v then 1 else 0))

def json_dumps_fn (v : PyVal) : Except PyErr PyVal :=
  match json_enc v with
  | .ok s => .ok (.str s)
  | .error e => .error e

/-- Python float() on a value. -/
def py_float_fn : PyVal → Except PyErr PyVal
  | .str s =>
    match parse_float_string s with
    | .ok q => .ok (.float q)
    | .error e => .error e
  | .int n => .ok (.float (mkRat n 1))
  | .float q => .ok (.float q)
  | .dec q => .ok (.float q)
  | .bool b => .ok (.float (mkRat (if b then 1 else 0) 1))
  | _ => .error .typeError

def py_bool_fn (v : PyVal) : Except PyErr PyVal :=
  .ok (.bool (truthy v))

def json_loads_fn : PyVal → Except PyErr PyVal
  | .str s => json_dec s
  | _ => .error .typeError

/-- SERIALIZE_MAP (dynamodb.py lines 85-93) as a partial lookup. -/
def SERIALIZE_MAP (sig : String) : Option (PyVal → Except PyErr PyVal) :=
  if sig = "number" then some py_str_fn
  else if sig = "string" then some py_str_fn
  else if sig = "string:date-time" then some iso_fn
  else if sig = "string:ttl" then some ttl_fn
  else if sig = "boolean" then some bool01_fn
  else if sig = "object" then some json_dumps_fn
  else if sig = "array" then some json_dumps_fn
  else none

/-- DESERIALIZE_MAP (dynamodb.py lines 95-100) as a partial lookup. -/
def DESERIALIZE_MAP (sig : String) : Option (PyVal → Except PyErr PyVal) :=
  if sig = "number" then some py_float_fn
  else if sig = "boolean" then some py_bool_fn
  else if sig = "object" then some json_loads_fn
  else if sig = "array" then some json_loads_fn
  else none

/-- Python str.rstrip with a colon argument. -/
def rstrip_colon (s : String) : String :=
  (s.toList.reverse.dropWhile (fun c => c == Char.ofNat 58)).reverse.asString

/-- The colon-join of a (type, format) pair with trailing colons
stripped, as built on dynamodb.py lines 160 and 186. -/
def type_signature (t : String × String) : String :=
  rstrip_colon (t.1 ++ ":" ++ t.2)

/-- Outcome of one iteration of the for-t-in-field-types loop. -/
inductive LoopStep where
  | ret (r : PyVal)
  | continueStep
  | raiseStep (e : PyErr)

/-- The exception classes the outer except clause catches: ValueError,
TypeError and KeyError. -/
def caught_by_loop : PyErr → Bool
  | .valueError => true
  | .typeError => true
  | .keyError => true
  | .attributeError => false

/-- The except-KeyError fallback: look up the bare type name and apply
it; a missing entry or a caught exception moves to the next iteration,
anything else propagates. -/
def map_fallback (map : String → Option (PyVal → Except PyErr PyVal))
    (t1 : String) (v : PyVal) : LoopStep :=
  match map t1 with
  | some g =>
    match g v with
    | .ok r => .ret r
    | .error e => if caught_by_loop e then .continueStep else .raiseStep e
  | none => .continueStep

/-- One iteration of the loop body: try the full type signature; a
KeyError (from the lookup or from the converter call, both land in the
inner except KeyError) falls back to the bare type name. -/
def try_type (map : String → Option (PyVal → Except PyErr PyVal))
    (t : String × String) (v : PyVal) : LoopStep :=
  match map (type_signature t) with
  | some f =>
    match f v with
    | .ok r => .ret r
    | .error .keyError => map_fallback map t.1 v
    | .error e => if caught_by_loop e then .continueStep else .raiseStep e
  | none => map_fallback map t.1 v

/-- The for-t-in-field-types loop: the first successful converter
returns, exhaustion falls through to returning the value unchanged. -/
def convert_loop (map : String → Option (PyVal → Except PyErr PyVal)) :
    List (String × String) → PyVal → Except PyErr PyVal
  | [], v => .ok v
  | t :: rest, v =>
    match try_type map t v with
    | .ret r => .ok r
    | .continueStep => convert_loop map rest v
    | .raiseStep e => .error e

/-- Model of DynamoSerializer._serialize_field (dynamodb.py lines
151-170): the TTL field overrides the schema types with the
(string, ttl) signature; a None value skips the loop. -/
def serialize_field (ttl_field : Option String)
    (types_of : String → List (String × String)) (field_name : String)
    (value : PyVal) : Except PyErr PyVal :=
  let field_types :=
    if ttl_field = some field_name then [("string", "ttl")] else types_of field_name
  match value with
  | .noneV => .ok value
  | _ => convert_loop SERIALIZE_MAP field_types value

/-- Model of DynamoSerializer._deserialize_field (dynamodb.py lines
181-194): same loop over the schema types with DESERIALIZE_MAP, with no
TTL override. -/
def deserialize_field (types_of : String → List (String × String))
    (field_name : String) (value : PyVal) : Except PyErr PyVal :=
  match value with
  | .noneV => .ok value
  | _ => convert_loop DESERIALIZE_MAP (types_of field_name) value

/-- A representative schema: integer, number, string, array and object
fields plus a datetime field expires marked as the TTL field, matching
the SimpleKeyModel of the test-suite. -/
def sample_types (f : String) : List (String × String) :=
  if f = "id" then [("integer", "")]
  else if f = "total" then [("number", "")]
  else if f = "name" then [("string", "")]
  else if f = "items" then [("array", "")]
  else if f = "data" then [("object", "")]
  else if f = "expires" then [("string", "date-time")]
  else []

/-- C7 counterexample: a UTC-aware datetime on the TTL field serializes
to the epoch Decimal 86400, but deserializing that value returns the
Decimal unchanged — the deserializer has no TTL override and no entry
for the string or string:date-time signatures, so the composition yields
the epoch number, not a value equal to the original instant (conversion
back to a datetime is left to pydantic validation). -/
theorem ttl_datetime_not_roundtripped :
    serialize_field (some "expires") sample_types "expires" (.dt ⟨86400, true⟩) =
      .ok (.dec 86400) ∧
    deserialize_field sample_types "expires" (.dec 86400) = .ok (.dec 86400) ∧
    (PyVal.dec 86400) ≠ (PyVal.dt ⟨86400, true⟩) := by
  refine ⟨by rfl, by rfl, fun h => PyVal.noConfusion h⟩

/-- C7 amended: on the non-TTL representative values the round trip does
hold — integers pass through untouched (no integer entry exists in
either map), floats go out through str and come back through float
exactly, the empty string survives the str serializer and the absent
string deserializer, and the empty array and a nested object survive the
json.dumps/json.loads pair. -/
theorem serializer_roundtrip_representatives :
    serialize_field none sample_types "id" (.int 0) = .ok (.int 0) ∧
    deserialize_field sample_types "id" (.int 0) = .ok (.int 0) ∧
    serialize_field none sample_types "id" (.int (-7)) = .ok (.int (-7)) ∧
    deserialize_field sample_types "id" (.int (-7)) = .ok (.int (-7)) ∧
    serialize_field none sample_types "total" (.float 0) = .ok (.str "0.0") ∧
    deserialize_field sample_types "total" (.str "0.0") = .ok (.float 0) ∧
    serialize_field none sample_types "total" (.float (mkRat (-5) 2)) =
      .ok (.str "-2.5") ∧
    deserialize_field sample_types "total" (.str "-2.5") =
      .ok (.float (mkRat (-5) 2)) ∧
    serialize_field none sample_types "name" (.str "") = .ok (.str "") ∧
    deserialize_field sample_types "name" (.str "") = .ok (.str "") ∧
    serialize_field none sample_types "items" (.list []) = .ok (.str "[]") ∧
    deserialize_field sample_types "items" (.str "[]") = .ok (.list []) ∧
    serialize_field none sample_types "data"
        (.dict [("a", .int 1), ("b", .dict [("c", .str "z")])]) =
      .ok (.str ("\x7b\"a\": 1, \"b\": \x7b\"c\": \"z\"\x7d\x7d")) ∧
    deserialize_field sample_types "data"
        (.str ("\x7b\"a\": 1, \"b\": \x7b\"c\": \"z\"\x7d\x7d")) =
      .ok (.dict [("a", .int 1), ("b", .dict [("c", .str "z")])]) := by
  refine ⟨by rfl, by rfl, by rfl, by rfl, by rfl, by rfl, by rfl, by rfl, by rfl,
    by rfl, by rfl, by rfl, by rfl, by rfl⟩

end PydantiCrud
